import Mathlib

/-!
Verification development for the half-edge (DCEL) core of the repository
(`geometricObjects.py`).  The Python object graph is embedded as an arena:
every `GeoPointDatum` created as an endpoint is a `Coords` entry in
`Mesh.points` (object identity = list index), every `GeoLine` is an entry in
`Mesh.edges`, and the two half-edges synthesized by `GeoLine.__init__` for
edge `j` live at arena indices `2*j` and `2*j+1` of `Mesh.hes`.  The five
reserved keys that the source stores in each half-edge's `data` dictionary
(`shape`, `next`, `previous`, `twin`, `parent`) become the typed record
`HEDict`; `GeoLine.__init__` always writes all five keys and the other
operations only overwrite existing ones, so the record is a faithful image
of the dictionary for every half-edge the module ever creates.
-/

/-- Coordinate snapshot of a `GeoPointDatum`: horizontal coordinates `h`
(the source keeps an `ndarray` of floats; we use rationals, no arithmetic is
ever performed on them) and vertical coordinate `v`. -/
structure Coords where
  h : List Rat
  v : Rat
deriving DecidableEq, Repr, Inhabited

/-- The reserved topological slice of a half-edge's `data` dictionary.
`shape` is the incident face (`None` until a `GeoShape` claims it), `next`,
`previous` and `twin` are arena indices of half-edges, `parent` is the index
of the owning `GeoLine`. -/
structure HEDict where
  shape : Option Nat
  next : Nat
  previous : Nat
  twin : Nat
  parent : Nat
deriving DecidableEq, Repr, Inhabited

/-- A half-edge: a special `GeoPointDatum` whose position copies one
endpoint of its owning line and whose data dictionary carries `HEDict`. -/
structure HalfEdgePt where
  pos : Coords
  data : HEDict
deriving DecidableEq, Repr, Inhabited

/-- The per-`GeoLine` record: `endPoints` holds the identities (arena
indices) of the two endpoint `GeoPointDatum` objects. -/
structure GeoLineRec where
  endPoints : Nat × Nat
deriving DecidableEq, Repr, Inhabited

/-- The whole object arena: caller-owned points, lines, half-edges and the
count of `GeoShape` objects created so far (used as face identity). -/
structure Mesh where
  points : List Coords
  edges : List GeoLineRec
  hes : List HalfEdgePt
  nShapes : Nat
deriving DecidableEq, Repr, Inhabited

/-- Read the half-edge record at arena index `x`. -/
def Mesh.he (m : Mesh) (x : Nat) : HalfEdgePt := m.hes.getD x default

/-- Overwrite one field group of the half-edge at index `x` (a mutation of
that object's `data` dictionary in the source). -/
def heUpd (m : Mesh) (x : Nat) (f : HEDict → HEDict) : Mesh :=
  { m with hes := m.hes.set x ⟨(m.he x).pos, f (m.he x).data⟩ }

/-- Dictionary write `data[key] = a` for `key = 'previous'`. -/
def setPrevF (a : Nat) : HEDict → HEDict := fun d => { d with previous := a }

/-- Dictionary write `data[key] = a` for `key = 'next'`. -/
def setNextF (a : Nat) : HEDict → HEDict := fun d => { d with next := a }

/-- Dictionary write `data[key] = s` for `key = 'shape'`. -/
def setShapeF (s : Option Nat) : HEDict → HEDict := fun d => { d with shape := s }

/-- `GeoLine.__init__(p0, p1)` (src/geometricObjects.py:144-175): records the
endpoint identities, synthesizes two fresh half-edges carrying copies of the
endpoint coordinates, and initialises their data dictionaries:
`shape = None`, `next = previous = twin =` the other half-edge,
`parent =` the new line. -/
def geoLineInit (m : Mesh) (p0 p1 : Nat) : Mesh :=
  let j := m.edges.length
  let c0 := m.points.getD p0 default
  let c1 := m.points.getD p1 default
  { m with
    edges := m.edges ++ [⟨(p0, p1)⟩],
    hes := m.hes ++
      [⟨c0, ⟨none, 2*j+1, 2*j+1, 2*j+1, j⟩⟩,
       ⟨c1, ⟨none, 2*j, 2*j, 2*j, j⟩⟩] }

/-- Identity of `self.endPoints[k]` for edge `e` (`k` is 0 or 1). -/
def endPt (m : Mesh) (e k : Nat) : Nat :=
  let r := m.edges.getD e default
  if k = 0 then r.endPoints.1 else r.endPoints.2

/-- The `connection[k]` entry computed by `joinLines`
(src/geometricObjects.py:219-232): `self.endPoints[k]` is compared by
identity against `line0.endPoints[0]` and then `line0.endPoints[1]`. -/
def connAt (m : Mesh) (i j k : Nat) : Option Nat :=
  if endPt m i k = endPt m j 0 then some 0
  else if endPt m i k = endPt m j 1 then some 1
  else none

/-- The `connectionCount` computed by `joinLines`: one increment per
endpoint of `self` that is a member of `line0.endPoints`. -/
def connectionCount (m : Mesh) (i j : Nat) : Nat :=
  (if endPt m i 0 = endPt m j 0 ∨ endPt m i 0 = endPt m j 1 then 1 else 0)
  + (if endPt m i 1 = endPt m j 0 ∨ endPt m i 1 = endPt m j 1 then 1 else 0)

/-- The body of the rewiring loop of `joinLines`
(src/geometricObjects.py:239-248) for one correspondence `(k, v)`, on edges
`i` (self) and `j` (line0), exactly in source order: the four references
`outEdge`, `inEdge`, `newOut`, `newIn` are read first, then the six
dictionary writes happen sequentially. -/
def spliceAt (m : Mesh) (i j k v : Nat) : Mesh :=
  let outE := 2*i + k
  let inE := (m.he outE).data.previous
  let newOut := 2*j + v
  let newIn := (m.he newOut).data.twin
  let m1 := heUpd m outE (setPrevF newIn)
  let m2 := heUpd m1 newIn (setNextF outE)
  let m3 := heUpd m2 newIn (setShapeF (m2.he outE).data.shape)
  let m4 := heUpd m3 inE (setNextF newOut)
  let m5 := heUpd m4 newOut (setPrevF inE)
  heUpd m5 newOut (setShapeF (m5.he inE).data.shape)

/-- `GeoLine.joinLines(line0)` (src/geometricObjects.py:199-248) on edges
`i` (self) and `j` (line0).  Returns the new arena and the number of
warnings emitted (one when `connectionCount == 0`, otherwise zero).  The
`connection` dictionary is computed up front, then the correspondences are
processed in insertion order `k = 0, 1`. -/
def joinLines (m : Mesh) (i j : Nat) : Mesh × Nat :=
  let warnCnt := if connectionCount m i j = 0 then 1 else 0
  let c0 := connAt m i j 0
  let c1 := connAt m i j 1
  let m1 := match c0 with
    | some v => spliceAt m i j 0 v
    | none => m
  let m2 := match c1 with
    | some v => spliceAt m1 i j 1 v
    | none => m1
  (m2, warnCnt)

/-- Follow the `next` reference of the half-edge at `x`. -/
def Mesh.nextOf (m : Mesh) (x : Nat) : Nat := (m.he x).data.next

/-- Iterate `next` `t` times starting at `x`. -/
def nextIter (m : Mesh) : Nat → Nat → Nat
  | 0, x => x
  | t+1, x => nextIter m t (m.nextOf x)

/-- Stamp `data['shape'] = self` onto the half-edge at `x`. -/
def setShape (m : Mesh) (x fid : Nat) : Mesh := heUpd m x (setShapeF (some fid))

/-- The `while temp is not halfedge` walk of `GeoShape.__init__`
(src/geometricObjects.py:274-277), fuelled because the source loop need not
terminate on a malformed chain; `none` means the fuel ran out. -/
def stampFace : Nat → Mesh → Nat → Nat → Nat → Option Mesh
  | 0, _, _, _, _ => none
  | fuel+1, m, fid, rep, cur =>
    if cur = rep then some m
    else
      let m' := setShape m cur fid
      stampFace fuel m' fid rep (m'.nextOf cur)

/-- Allocate a new `GeoShape` object: its identity is the previous count of
shapes, and the count grows by one. -/
def bumpShapes (m : Mesh) : Mesh := { m with nShapes := m.nShapes + 1 }

/-- `GeoShape.__init__(halfedge)` (src/geometricObjects.py:267-277) for a
representative that is a genuine half-edge of the arena: stamp the
representative, then walk `next` stamping every half-edge until the walk
returns to the representative.  The new shape's identity is `m.nShapes`. -/
def geoShapeInit (fuel : Nat) (m : Mesh) (rep : Nat) : Option (Mesh × Nat) :=
  let fid := m.nShapes
  let m0 := setShape (bumpShapes m) rep fid
  match stampFace fuel m0 fid rep (m0.nextOf rep) with
  | some m' => some (m', fid)
  | none => none

/-- The empty arena. -/
def emptyMesh : Mesh := ⟨[], [], [], 0⟩

/-- Demo coordinates for concrete tests. -/
def cA : Coords := ⟨[0, 0], 0⟩

/-- Demo coordinates for concrete tests. -/
def cB : Coords := ⟨[1, 0], 0⟩

/-- Demo coordinates for concrete tests. -/
def cC : Coords := ⟨[0, 1], 0⟩

/-- The triangle build of spec §8: three distinct points (arena indices
0, 1, 2 with arbitrary coordinates), edges `e1(p0,p1)`, `e2(p1,p2)`,
`e3(p2,p0)`, joined `e1.join(e2)`, `e2.join(e3)`, `e3.join(e1)`. -/
def triMesh (c0 c1 c2 : Coords) : Mesh :=
  let m := { emptyMesh with points := [c0, c1, c2] }
  let m := geoLineInit m 0 1
  let m := geoLineInit m 1 2
  let m := geoLineInit m 2 0
  let m := (joinLines m 0 1).1
  let m := (joinLines m 1 2).1
  (joinLines m 2 0).1

/-- A concrete joined triangle. -/
def triDemo : Mesh := triMesh cA cB cC

/-- `next`-chain from `h` first returns to `h` after exactly `n` steps. -/
def returnsExactly (m : Mesh) (h n : Nat) : Bool :=
  (nextIter m n h == h) &&
    ((List.range (n-1)).all fun t => !(nextIter m (t+1) h == h))


/-! List access helpers for the arena. -/

theorem list_getD_set_self {α} (l : List α) (i : Nat) (a d : α) (h : i < l.length) :
    (l.set i a).getD i d = a := by
  simp [List.getD_eq_getElem?_getD, List.getElem?_set_self h]

theorem list_getD_set_ne {α} (l : List α) {i x : Nat} (a d : α) (h : i ≠ x) :
    (l.set i a).getD x d = l.getD x d := by
  simp [List.getD_eq_getElem?_getD, List.getElem?_set_ne h]

theorem list_set_getD_self {α} (l : List α) (i : Nat) (d : α) (h : i < l.length) :
    l.set i (l.getD i d) = l := by
  apply List.ext_getElem?
  intro n
  by_cases hn : i = n
  · subst hn
    rw [List.getElem?_set_self h, List.getD_eq_getElem?_getD, List.getElem?_eq_getElem h]
    rfl
  · rw [List.getElem?_set_ne hn]

theorem list_getD_append_left {α} (l r : List α) (i : Nat) (d : α) (h : i < l.length) :
    (l ++ r).getD i d = l.getD i d := by
  simp [List.getD_eq_getElem?_getD, List.getElem?_append_left h]

theorem list_getD_append_right {α} (l r : List α) (i : Nat) (d : α) (h : l.length ≤ i) :
    (l ++ r).getD i d = r.getD (i - l.length) d := by
  simp [List.getD_eq_getElem?_getD, List.getElem?_append_right h]

/-! Arena update lemmas. -/

theorem hesLen_heUpd (m : Mesh) (x : Nat) (f : HEDict → HEDict) :
    (heUpd m x f).hes.length = m.hes.length := by
  simp [heUpd]

theorem edges_heUpd (m : Mesh) (x : Nat) (f : HEDict → HEDict) :
    (heUpd m x f).edges = m.edges := rfl

theorem points_heUpd (m : Mesh) (x : Nat) (f : HEDict → HEDict) :
    (heUpd m x f).points = m.points := rfl

theorem nShapes_heUpd (m : Mesh) (x : Nat) (f : HEDict → HEDict) :
    (heUpd m x f).nShapes = m.nShapes := rfl

theorem he_heUpd (m : Mesh) (x : Nat) (f : HEDict → HEDict) (y : Nat) :
    (heUpd m x f).he y =
      if x = y ∧ x < m.hes.length then ⟨(m.he x).pos, f (m.he x).data⟩ else m.he y := by
  show (m.hes.set x ⟨(m.he x).pos, f (m.he x).data⟩).getD y default = _
  by_cases hlt : x < m.hes.length
  · by_cases hxy : x = y
    · subst hxy
      rw [list_getD_set_self _ _ _ _ hlt]
      simp [hlt]
    · rw [list_getD_set_ne _ _ _ hxy]
      simp [hxy, Mesh.he]
  · rw [List.set_eq_of_length_le (Nat.le_of_not_lt hlt)]
    simp [hlt, Mesh.he]

theorem heField_heUpd {α} (m : Mesh) (x : Nat) (f : HEDict → HEDict) (g : HEDict → α)
    (hg : ∀ d, g (f d) = g d) (y : Nat) :
    g ((heUpd m x f).he y).data = g (m.he y).data := by
  rw [he_heUpd]
  split
  · next hc =>
      rcases hc with ⟨hxy, _⟩
      subst hxy
      exact hg _
  · rfl

theorem twin_heUpd_prev (m : Mesh) (x a y : Nat) :
    ((heUpd m x (setPrevF a)).he y).data.twin = ((m.he y).data).twin :=
  heField_heUpd m x (setPrevF a) HEDict.twin (fun _ => rfl) y

theorem twin_heUpd_next (m : Mesh) (x a y : Nat) :
    ((heUpd m x (setNextF a)).he y).data.twin = ((m.he y).data).twin :=
  heField_heUpd m x (setNextF a) HEDict.twin (fun _ => rfl) y

theorem twin_heUpd_shape (m : Mesh) (x : Nat) (s : Option Nat) (y : Nat) :
    ((heUpd m x (setShapeF s)).he y).data.twin = ((m.he y).data).twin :=
  heField_heUpd m x (setShapeF s) HEDict.twin (fun _ => rfl) y

theorem shape_heUpd_prev (m : Mesh) (x a y : Nat) :
    ((heUpd m x (setPrevF a)).he y).data.shape = ((m.he y).data).shape :=
  heField_heUpd m x (setPrevF a) HEDict.shape (fun _ => rfl) y

theorem shape_heUpd_next (m : Mesh) (x a y : Nat) :
    ((heUpd m x (setNextF a)).he y).data.shape = ((m.he y).data).shape :=
  heField_heUpd m x (setNextF a) HEDict.shape (fun _ => rfl) y

theorem next_heUpd_shape (m : Mesh) (x : Nat) (s : Option Nat) (y : Nat) :
    ((heUpd m x (setShapeF s)).he y).data.next = ((m.he y).data).next :=
  heField_heUpd m x (setShapeF s) HEDict.next (fun _ => rfl) y

theorem twin_spliceAt (m : Mesh) (i j k v y : Nat) :
    ((spliceAt m i j k v).he y).data.twin = ((m.he y).data).twin := by
  simp only [spliceAt, twin_heUpd_prev, twin_heUpd_next, twin_heUpd_shape]

theorem hesLen_spliceAt (m : Mesh) (i j k v : Nat) :
    (spliceAt m i j k v).hes.length = m.hes.length := by
  simp only [spliceAt, hesLen_heUpd]

theorem edges_spliceAt (m : Mesh) (i j k v : Nat) :
    (spliceAt m i j k v).edges = m.edges := rfl

theorem twin_joinLines (m : Mesh) (i j y : Nat) :
    (((joinLines m i j).1.he y).data).twin = ((m.he y).data).twin := by
  simp only [joinLines]
  cases connAt m i j 0 <;> cases connAt m i j 1 <;>
    simp only [twin_spliceAt]

theorem hesLen_joinLines (m : Mesh) (i j : Nat) :
    (joinLines m i j).1.hes.length = m.hes.length := by
  simp only [joinLines]
  cases connAt m i j 0 <;> cases connAt m i j 1 <;>
    simp only [hesLen_spliceAt]

theorem edges_joinLines (m : Mesh) (i j : Nat) :
    (joinLines m i j).1.edges = m.edges := by
  simp only [joinLines]
  cases connAt m i j 0 <;> cases connAt m i j 1 <;>
    simp only [edges_spliceAt]

/-! Well-formedness: the arena always holds exactly two half-edges per line,
and the two half-edges of line `e` sit at indices `2*e` and `2*e+1`. -/

/-- Structural invariant of arenas built by the module's constructors. -/
def meshWF (m : Mesh) : Prop := m.hes.length = 2 * m.edges.length

/-- Twin symmetry of spec §8: the two half-edges of every line reference
each other as `twin`. -/
def twinOK (m : Mesh) : Prop :=
  ∀ e, e < m.edges.length →
    ((m.he (2*e)).data).twin = 2*e+1 ∧ ((m.he (2*e+1)).data).twin = 2*e

theorem hesLen_geoLineInit (m : Mesh) (p0 p1 : Nat) :
    (geoLineInit m p0 p1).hes.length = m.hes.length + 2 := by
  show (m.hes ++ [_, _]).length = _
  simp

theorem edgesLen_geoLineInit (m : Mesh) (p0 p1 : Nat) :
    (geoLineInit m p0 p1).edges.length = m.edges.length + 1 := by
  show (m.edges ++ [_]).length = _
  simp

theorem he_geoLineInit_old (m : Mesh) (p0 p1 x : Nat) (h : x < m.hes.length) :
    (geoLineInit m p0 p1).he x = m.he x := by
  show (m.hes ++ _).getD x default = _
  rw [list_getD_append_left _ _ _ _ h]
  rfl

theorem he_geoLineInit_new0 (m : Mesh) (p0 p1 : Nat) (h : meshWF m) :
    (geoLineInit m p0 p1).he (2 * m.edges.length)
      = ⟨m.points.getD p0 default,
         ⟨none, 2*m.edges.length+1, 2*m.edges.length+1, 2*m.edges.length+1,
          m.edges.length⟩⟩ := by
  show (m.hes ++ [_, _]).getD (2 * m.edges.length) default = _
  rw [← h, list_getD_append_right _ _ _ _ (Nat.le_refl _), Nat.sub_self]
  rfl

theorem he_geoLineInit_new1 (m : Mesh) (p0 p1 : Nat) (h : meshWF m) :
    (geoLineInit m p0 p1).he (2 * m.edges.length + 1)
      = ⟨m.points.getD p1 default,
         ⟨none, 2*m.edges.length, 2*m.edges.length, 2*m.edges.length,
          m.edges.length⟩⟩ := by
  show (m.hes ++ [_, _]).getD (2 * m.edges.length + 1) default = _
  rw [← h, list_getD_append_right _ _ _ _ (Nat.le_succ_of_le (Nat.le_refl _))]
  rw [Nat.succ_sub (Nat.le_refl _), Nat.sub_self]
  rfl

theorem meshWF_geoLineInit (m : Mesh) (p0 p1 : Nat) (h : meshWF m) :
    meshWF (geoLineInit m p0 p1) := by
  unfold meshWF at h ⊢
  rw [hesLen_geoLineInit, edgesLen_geoLineInit]
  omega

theorem twinOK_geoLineInit (m : Mesh) (p0 p1 : Nat) (hwf : meshWF m) (h : twinOK m) :
    twinOK (geoLineInit m p0 p1) := by
  intro e he
  rw [edgesLen_geoLineInit] at he
  rcases Nat.lt_succ_iff_lt_or_eq.mp he with hlt | heq
  · have h0 : 2*e < m.hes.length := by unfold meshWF at hwf; omega
    have h1 : 2*e+1 < m.hes.length := by unfold meshWF at hwf; omega
    rw [he_geoLineInit_old _ _ _ _ h0, he_geoLineInit_old _ _ _ _ h1]
    exact h e hlt
  · subst heq
    rw [he_geoLineInit_new0 _ p0 p1 hwf, he_geoLineInit_new1 _ p0 p1 hwf]
    exact ⟨rfl, rfl⟩

theorem meshWF_joinLines (m : Mesh) (i j : Nat) (h : meshWF m) :
    meshWF ((joinLines m i j).1) := by
  unfold meshWF at h ⊢
  rw [hesLen_joinLines, edges_joinLines]
  exact h

theorem twinOK_joinLines (m : Mesh) (i j : Nat) (h : twinOK m) :
    twinOK ((joinLines m i j).1) := by
  intro e he
  rw [edges_joinLines] at he
  rw [twin_joinLines, twin_joinLines]
  exact h e he

/-- One caller action: create a point, create a line between two existing
points, or join two lines.  Arbitrary lists of these actions describe every
usage of the module. -/
inductive Instr where
  | addPoint (c : Coords)
  | addLine (p0 p1 : Nat)
  | join (i j : Nat)

/-- Execute one caller action. -/
def step (m : Mesh) : Instr → Mesh
  | Instr.addPoint c => { m with points := m.points ++ [c] }
  | Instr.addLine p0 p1 => geoLineInit m p0 p1
  | Instr.join i j => (joinLines m i j).1

/-- Execute a list of caller actions. -/
def runProg (prog : List Instr) (m : Mesh) : Mesh := prog.foldl step m

theorem invariant_runProg : ∀ (prog : List Instr) (m : Mesh),
    meshWF m → twinOK m → meshWF (runProg prog m) ∧ twinOK (runProg prog m)
  | [], _, h1, h2 => ⟨h1, h2⟩
  | ins :: rest, m, h1, h2 => by
    have hstep : meshWF (step m ins) ∧ twinOK (step m ins) := by
      cases ins with
      | addPoint c => exact ⟨h1, h2⟩
      | addLine p0 p1 => exact ⟨meshWF_geoLineInit m p0 p1 h1, twinOK_geoLineInit m p0 p1 h1 h2⟩
      | join i j => exact ⟨meshWF_joinLines m i j h1, twinOK_joinLines m i j h2⟩
    exact invariant_runProg rest (step m ins) hstep.1 hstep.2

/-! The face-construction walk. -/

theorem nextOf_setShape (m : Mesh) (x fid y : Nat) :
    (setShape m x fid).nextOf y = m.nextOf y :=
  next_heUpd_shape m x (some fid) y

theorem next_setShape (m : Mesh) (x fid y : Nat) :
    (((setShape m x fid).he y).data).next = ((m.he y).data).next :=
  next_heUpd_shape m x (some fid) y

theorem hesLen_setShape (m : Mesh) (x fid : Nat) :
    (setShape m x fid).hes.length = m.hes.length :=
  hesLen_heUpd m x (setShapeF (some fid))

theorem nextIter_setShape (m : Mesh) (x fid : Nat) :
    ∀ (t y : Nat), nextIter (setShape m x fid) t y = nextIter m t y
  | 0, _ => rfl
  | t+1, y => by
    show nextIter (setShape m x fid) t ((setShape m x fid).nextOf y) = _
    rw [nextOf_setShape, nextIter_setShape m x fid t]
    rfl

theorem he_setNShapes (m : Mesh) (c y : Nat) :
    ({ m with nShapes := c } : Mesh).he y = m.he y := rfl

theorem nextIter_setNShapes (m : Mesh) (c : Nat) :
    ∀ (t y : Nat), nextIter { m with nShapes := c } t y = nextIter m t y
  | 0, _ => rfl
  | t+1, y => by
    show nextIter { m with nShapes := c } t _ = _
    rw [nextIter_setNShapes m c t]
    rfl

theorem shape_setShape_self (m : Mesh) (x fid : Nat) (h : x < m.hes.length) :
    (((setShape m x fid).he x).data).shape = some fid := by
  unfold setShape
  rw [he_heUpd]
  simp [h]
  rfl

theorem he_setShape_ne (m : Mesh) (x fid y : Nat) (h : x ≠ y) :
    (setShape m x fid).he y = m.he y := by
  unfold setShape
  rw [he_heUpd]
  simp [h]

theorem stampFace_run : ∀ (s : Nat) (m : Mesh) (fid rep cur : Nat),
    nextIter m s cur = rep →
    (∀ t, t < s → nextIter m t cur ≠ rep) →
    (∀ t, t < s → nextIter m t cur < m.hes.length) →
    ∃ m', stampFace (s+1) m fid rep cur = some m' ∧
      m'.hes.length = m.hes.length ∧
      m'.edges = m.edges ∧
      (∀ y, ((m'.he y).data).next = ((m.he y).data).next) ∧
      (∀ t, t < s → ((m'.he (nextIter m t cur)).data).shape = some fid) ∧
      (∀ y, (∀ t, t < s → nextIter m t cur ≠ y) → m'.he y = m.he y)
  | 0, m, fid, rep, cur, hclose, _, _ => by
    have hc : cur = rep := hclose
    refine ⟨m, ?_, rfl, rfl, fun _ => rfl, fun t ht => absurd ht (by omega), fun _ _ => rfl⟩
    simp [stampFace, hc]
  | s+1, m, fid, rep, cur, hclose, hmin, hrange => by
    have hne : cur ≠ rep := hmin 0 (by omega)
    have hcr : cur < m.hes.length := hrange 0 (by omega)
    have hm1close : nextIter (setShape m cur fid) s (m.nextOf cur) = rep := by
      rw [nextIter_setShape]
      exact hclose
    have hm1min : ∀ t, t < s → nextIter (setShape m cur fid) t (m.nextOf cur) ≠ rep := by
      intro t ht
      rw [nextIter_setShape]
      exact hmin (t+1) (by omega)
    have hm1range : ∀ t, t < s →
        nextIter (setShape m cur fid) t (m.nextOf cur) < (setShape m cur fid).hes.length := by
      intro t ht
      rw [nextIter_setShape, hesLen_setShape]
      exact hrange (t+1) (by omega)
    obtain ⟨m', heq, hlen, hedges, hnext, hshape, hold⟩ :=
      stampFace_run s (setShape m cur fid) fid rep (m.nextOf cur) hm1close hm1min hm1range
    refine ⟨m', ?_, ?_, ?_, ?_, ?_, ?_⟩
    · show stampFace (s+2) m fid rep cur = some m'
      simp only [stampFace, if_neg hne]
      rw [nextOf_setShape]
      exact heq
    · rw [hlen, hesLen_setShape]
    · rw [hedges]
      rfl
    · intro y
      rw [hnext y, next_setShape]
    · intro t ht
      match t with
      | 0 =>
        show ((m'.he cur).data).shape = some fid
        by_cases hvis : ∀ u, u < s → nextIter (setShape m cur fid) u (m.nextOf cur) ≠ cur
        · rw [hold cur hvis]
          exact shape_setShape_self m cur fid hcr
        · push_neg at hvis
          obtain ⟨u, hu, hueq⟩ := hvis
          have := hshape u hu
          rw [hueq] at this
          exact this
      | u+1 =>
        have : nextIter m (u+1) cur = nextIter (setShape m cur fid) u (m.nextOf cur) := by
          rw [nextIter_setShape]
          rfl
        rw [this]
        exact hshape u (by omega)
    · intro y hy
      have hy0 : cur ≠ y := hy 0 (by omega)
      have hyrest : ∀ u, u < s → nextIter (setShape m cur fid) u (m.nextOf cur) ≠ y := by
        intro u hu
        rw [nextIter_setShape]
        exact hy (u+1) (by omega)
      rw [hold y hyrest]
      exact he_setShape_ne m cur fid y hy0

theorem he_bumpShapes (m : Mesh) (y : Nat) : (bumpShapes m).he y = m.he y := rfl

theorem hesLen_bumpShapes (m : Mesh) : (bumpShapes m).hes.length = m.hes.length := rfl

theorem nextOf_bumpShapes (m : Mesh) (y : Nat) : (bumpShapes m).nextOf y = m.nextOf y := rfl

theorem nextIter_bumpShapes (m : Mesh) :
    ∀ (t y : Nat), nextIter (bumpShapes m) t y = nextIter m t y
  | 0, _ => rfl
  | t+1, y => by
    show nextIter (bumpShapes m) t ((bumpShapes m).nextOf y) = _
    rw [nextOf_bumpShapes, nextIter_bumpShapes m t]
    rfl

theorem geoShapeInit_run (m : Mesh) (rep n : Nat)
    (hpos : 0 < n)
    (hclose : nextIter m n rep = rep)
    (hmin : ∀ k, k < n → 0 < k → nextIter m k rep ≠ rep)
    (hrange : ∀ t, t < n → nextIter m t rep < m.hes.length) :
    ∃ m', geoShapeInit n m rep = some (m', m.nShapes) ∧
      m'.hes.length = m.hes.length ∧
      (∀ t, t < n → ((m'.he (nextIter m t rep)).data).shape = some m.nShapes) := by
  obtain ⟨s, rfl⟩ : ∃ s, n = s + 1 := ⟨n - 1, by omega⟩
  have hIter : ∀ (t y : Nat),
      nextIter (setShape (bumpShapes m) rep m.nShapes) t y = nextIter m t y := by
    intro t y
    rw [nextIter_setShape, nextIter_bumpShapes]
  have hLen0 : (setShape (bumpShapes m) rep m.nShapes).hes.length = m.hes.length := by
    rw [hesLen_setShape]
    rfl
  have hcur : (setShape (bumpShapes m) rep m.nShapes).nextOf rep = m.nextOf rep := by
    rw [nextOf_setShape]
    rfl
  obtain ⟨m', heq, hlen, _, _, hshape, hold⟩ :=
    stampFace_run s (setShape (bumpShapes m) rep m.nShapes) m.nShapes rep
      ((setShape (bumpShapes m) rep m.nShapes).nextOf rep)
      (by rw [hcur, hIter]; exact hclose)
      (by
        intro t ht
        rw [hcur, hIter]
        exact hmin (t+1) (by omega) (by omega))
      (by
        intro t ht
        rw [hcur, hIter, hLen0]
        exact hrange (t+1) (by omega))
  refine ⟨m', ?_, ?_, ?_⟩
  · show (match stampFace (s+1) (setShape (bumpShapes m) rep m.nShapes) m.nShapes rep
        ((setShape (bumpShapes m) rep m.nShapes).nextOf rep) with
      | some mr => some (mr, m.nShapes)
      | none => none) = some (m', m.nShapes)
    rw [heq]
  · rw [hlen, hLen0]
  · intro t ht
    match t with
    | 0 =>
      show ((m'.he rep).data).shape = some m.nShapes
      have hnot : ∀ u, u < s →
          nextIter (setShape (bumpShapes m) rep m.nShapes) u
            ((setShape (bumpShapes m) rep m.nShapes).nextOf rep) ≠ rep := by
        intro u hu
        rw [hcur, hIter]
        exact hmin (u+1) (by omega) (by omega)
      rw [hold rep hnot]
      exact shape_setShape_self (bumpShapes m) rep m.nShapes (hrange 0 (by omega))
    | u+1 =>
      have hidx : nextIter m (u+1) rep
          = nextIter (setShape (bumpShapes m) rep m.nShapes) u
              ((setShape (bumpShapes m) rep m.nShapes).nextOf rep) := by
        rw [hcur, hIter]
        rfl
      rw [hidx]
      exact hshape u (by omega)

theorem nextIter_add (m : Mesh) : ∀ (a b x : Nat),
    nextIter m (a + b) x = nextIter m b (nextIter m a x)
  | 0, b, x => by
    rw [Nat.zero_add]
    rfl
  | a+1, b, x => by
    have h1 : a + 1 + b = (a + b) + 1 := by omega
    rw [h1]
    show nextIter m (a + b) (m.nextOf x) = nextIter m b (nextIter m a (m.nextOf x))
    exact nextIter_add m a b (m.nextOf x)

theorem nextIter_minimal_inj (m : Mesh) (rep n : Nat)
    (hclose : nextIter m n rep = rep)
    (hmin : ∀ k, k < n → 0 < k → nextIter m k rep ≠ rep) :
    ∀ a, a < n → ∀ b, b < n → nextIter m a rep = nextIter m b rep → a = b := by
  have key : ∀ a b, a < b → b < n → nextIter m a rep = nextIter m b rep → False := by
    intro a b hab hbn heq
    have h1 : nextIter m (b + (n - b)) rep = rep := by
      have he2 : b + (n - b) = n := by omega
      rw [he2, hclose]
    have h2 : nextIter m (a + (n - b)) rep = rep := by
      rw [nextIter_add, heq, ← nextIter_add, h1]
    exact hmin (a + (n - b)) (by omega) (by omega) h2
  intro a ha b hb heq
  rcases Nat.lt_trichotomy a b with h | h | h
  · exact absurd heq (fun e => key a b h hb e)
  · exact h
  · exact absurd heq (fun e => key b a h ha e.symm)

/-! Identity splices: machinery for the self-join of a fresh line. -/

theorem heUpd_id (m : Mesh) (x : Nat) (f : HEDict → HEDict)
    (h : x < m.hes.length) (hf : f (m.he x).data = (m.he x).data) :
    heUpd m x f = m := by
  unfold heUpd
  rw [hf]
  show { m with hes := m.hes.set x (m.hes.getD x default) } = m
  rw [list_set_getD_self _ _ _ h]

theorem setPrevF_id (d : HEDict) (a : Nat) (h : d.previous = a) : setPrevF a d = d := by
  cases d
  cases h
  rfl

theorem setNextF_id (d : HEDict) (a : Nat) (h : d.next = a) : setNextF a d = d := by
  cases d
  cases h
  rfl

theorem setShapeF_id (d : HEDict) (s : Option Nat) (h : d.shape = s) : setShapeF s d = d := by
  cases d
  cases h
  rfl

theorem edgesGet_geoLineInit_new (m : Mesh) (p0 p1 : Nat) :
    (geoLineInit m p0 p1).edges.getD m.edges.length default = ⟨(p0, p1)⟩ := by
  show (m.edges ++ [(⟨(p0, p1)⟩ : GeoLineRec)]).getD m.edges.length default = _
  rw [list_getD_append_right _ _ _ _ (Nat.le_refl _), Nat.sub_self]
  rfl

theorem spliceAt_self_id (m : Mesh) (i k : Nat)
    (hin : 2*i + k < m.hes.length)
    (hni : (m.he (2*i+k)).data.twin < m.hes.length)
    (hprev : (m.he (2*i+k)).data.previous = (m.he (2*i+k)).data.twin)
    (hnext : (m.he ((m.he (2*i+k)).data.twin)).data.next = 2*i+k)
    (hshape : (m.he ((m.he (2*i+k)).data.twin)).data.shape = (m.he (2*i+k)).data.shape) :
    spliceAt m i i k k = m := by
  have e1 : heUpd m (2*i+k) (setPrevF ((m.he (2*i+k)).data.twin)) = m :=
    heUpd_id m _ _ hin (setPrevF_id _ _ hprev)
  have e2 : heUpd m ((m.he (2*i+k)).data.twin) (setNextF (2*i+k)) = m :=
    heUpd_id m _ _ hni (setNextF_id _ _ hnext)
  have e3 : heUpd m ((m.he (2*i+k)).data.twin)
      (setShapeF ((m.he (2*i+k)).data.shape)) = m :=
    heUpd_id m _ _ hni (setShapeF_id _ _ hshape)
  have e6 : heUpd m (2*i+k)
      (setShapeF ((m.he ((m.he (2*i+k)).data.twin)).data.shape)) = m :=
    heUpd_id m _ _ hin (setShapeF_id _ _ hshape.symm)
  simp only [spliceAt]
  rw [e1, e2, e3, hprev, e2, e1, e6]

theorem he_heUpd_ne (m : Mesh) (x : Nat) (f : HEDict → HEDict) (y : Nat) (h : x ≠ y) :
    (heUpd m x f).he y = m.he y := by
  rw [he_heUpd]
  simp [h]

theorem shape_setShapeF_self (m : Mesh) (x : Nat) (s : Option Nat) (h : x < m.hes.length) :
    (((heUpd m x (setShapeF s)).he x).data).shape = s := by
  rw [he_heUpd]
  simp [h]
  rfl

/-- Modelled from the spec (§4.2 rewiring sentence, as quoted in claim C1):
with `outEdge` the half-edge of the receiving edge at the shared endpoint,
`inEdge = outEdge.previous`, `newOut` the half-edge of the other edge at the
shared endpoint and `newIn = newOut.twin`, perform in order
`outEdge.previous = newIn`; `newIn.next = outEdge`;
`newIn.face = outEdge.face`; `inEdge.next = newOut`;
`newOut.previous = inEdge`; `newOut.face = inEdge.face`. -/
def spliceRewireSpec (m : Mesh) (outE newOut : Nat) : Mesh :=
  let inE := (m.he outE).data.previous
  let newIn := (m.he newOut).data.twin
  let s1 := heUpd m outE (setPrevF newIn)
  let s2 := heUpd s1 newIn (setNextF outE)
  let s3 := heUpd s2 newIn (setShapeF (s2.he outE).data.shape)
  let s4 := heUpd s3 inE (setNextF newOut)
  let s5 := heUpd s4 newOut (setPrevF inE)
  heUpd s5 newOut (setShapeF (s5.he inE).data.shape)

/-!
A second, untyped embedding of `GeoShape.__init__` over open dictionaries.
It is used for the error-path claims, where the argument may be any object:
one that has no `data` attribute at all, or a `GeoPointDatum` whose `data`
dictionary does not carry the reserved topological keys.
-/

/-- Dictionary keys of the reserved topological attributes. -/
inductive PyKey where
  | kshape
  | knext
  | kprevious
  | ktwin
  | kparent
deriving DecidableEq, Repr

/-- Values stored in a half-edge's `data` dictionary: `None`, a `GeoShape`
(by identity), or a reference to another heap object. -/
inductive PyVal where
  | vnone
  | vshape (sid : Nat)
  | vref (i : Nat)
deriving DecidableEq, Repr

/-- A Python object for the untyped model: whether it has a `data`
attribute, and if so the dictionary (association list in insertion order). -/
structure PyObj where
  hasData : Bool
  dict : List (PyKey × PyVal)
deriving DecidableEq, Repr

/-- Exceptions relevant to `GeoShape.__init__`. -/
inductive PyErr where
  | typeErr
  | keyErr
  | attrErr
deriving DecidableEq, Repr

/-- Heap of Python objects, addressed by identity. -/
abbrev PyHeap : Type := List PyObj

/-- Python dictionary lookup `d[q]`; `none` signals a `KeyError`. -/
def dictFind : List (PyKey × PyVal) → PyKey → Option PyVal
  | [], _ => none
  | (k, v) :: rest, q => if k = q then some v else dictFind rest q

/-- Python dictionary store `d[q] = w`: replace in place, else append. -/
def dictPut : List (PyKey × PyVal) → PyKey → PyVal → List (PyKey × PyVal)
  | [], q, w => [(q, w)]
  | (k, v) :: rest, q, w => if k = q then (k, w) :: rest else (k, v) :: dictPut rest q w

/-- The `while temp is not halfedge` loop of `GeoShape.__init__` in the
untyped model.  `temp.data['shape'] = self` and `temp = temp.data['next']`
run outside any `try`, so an object without `data` raises `AttributeError`
and a dictionary without `'next'` raises `KeyError`, both uncaught; the
mutations performed before the raise stay.  Result: `none` when the fuel is
exhausted, otherwise the final heap together with the escaping exception,
if any. -/
def stampLoopRaw : Nat → PyHeap → Nat → Nat → PyVal → Option (PyHeap × Option PyErr)
  | 0, _, _, _, _ => none
  | fuel+1, hp, fid, rep, temp =>
    if temp = PyVal.vref rep then some (hp, none)
    else
      match temp with
      | PyVal.vref i =>
        match List.get? hp i with
        | some o =>
          if o.hasData then
            let d' := dictPut o.dict PyKey.kshape (PyVal.vshape fid)
            let hp' := hp.set i ⟨o.hasData, d'⟩
            match dictFind d' PyKey.knext with
            | some t' => stampLoopRaw fuel hp' fid rep t'
            | none => some (hp', some PyErr.keyErr)
          else some (hp, some PyErr.attrErr)
        | none => some (hp, some PyErr.attrErr)
      | _ => some (hp, some PyErr.attrErr)

/-- `GeoShape.__init__(halfedge)` (src/geometricObjects.py:267-277) in the
untyped model; `fid` is the identity of the `GeoShape` being constructed and
`arg` the heap identity of the argument.  The first statement
`halfedge.data['shape'] = self` is wrapped in `try`, so a missing `data`
attribute is re-raised as `TypeError`; the following read
`temp = halfedge.data['next']` is not wrapped, so a missing `'next'` key
raises `KeyError` after the `'shape'` write has already mutated the
argument's dictionary. -/
def geoShapeInitRaw (fuel : Nat) (hp : PyHeap) (fid : Nat) (arg : Nat) :
    Option (PyHeap × Option PyErr) :=
  match List.get? hp arg with
  | none => some (hp, some PyErr.typeErr)
  | some o =>
    if o.hasData then
      let d' := dictPut o.dict PyKey.kshape (PyVal.vshape fid)
      let hp1 := hp.set arg ⟨o.hasData, d'⟩
      match dictFind d' PyKey.knext with
      | some t => stampLoopRaw fuel hp1 fid arg t
      | none => some (hp1, some PyErr.keyErr)
    else some (hp, some PyErr.typeErr)

/-- A freshly constructed `GeoPointDatum()`: it has a `data` dictionary and
the dictionary is empty (no reserved topological keys). -/
def plainPointHeap : PyHeap := [⟨true, []⟩]

/-- An object with no `data` attribute at all. -/
def noDataHeap : PyHeap := [⟨false, []⟩]

/-!
The open attribute stores (`addDatum` of `GeoPointDatum` and of `GeoLine`,
src/geometricObjects.py:51-73 and 177-197): `self.data[key] = value`, and a
lookup of an absent key raises `KeyError` rather than producing a default.
`GeoShape.__init__` assigns no attribute on `self` whatsoever, so a
`GeoShape` instance has no `data` store at all, although the class
docstring promises one.
-/

/-- Python dictionary as a partial map: `addDatum` writes `data[key] = value`. -/
def addDatum {κ ν : Type} [DecidableEq κ] (data : κ → Option ν) (k : κ) (v : ν) :
    κ → Option ν :=
  fun q => if q = k then some v else data q

/-- The empty `data` dictionary every constructor starts from. -/
def emptyData (κ ν : Type) : κ → Option ν := fun _ => none

/-- A Python dictionary built by a sequence of `addDatum` writes applied in
order, starting from the empty store a constructor creates. -/
def buildData {κ ν : Type} [DecidableEq κ] (ps : List (κ × ν)) : κ → Option ν :=
  ps.foldl (fun d p => addDatum d p.1 p.2) (emptyData κ ν)

/-- Instance attribute names relevant to the `GeoShape` store. -/
inductive PyAttr where
  | adata
  | aother (n : Nat)
deriving DecidableEq, Repr

/-- Python attribute access `obj.name` against the set of attributes the
instance carries: an absent attribute raises `AttributeError`. -/
def getInstanceAttr (attrs : List PyAttr) (a : PyAttr) : Except PyErr Unit :=
  if a ∈ attrs then Except.ok () else Except.error PyErr.attrErr

/-- The instance attributes `GeoShape.__init__` assigns on `self`,
transcribed from the source: the constructor only mutates the half-edges it
walks and never assigns any attribute on `self`, so the list is empty (in
particular no `data` dictionary is ever created). -/
def geoShapeInstanceAttrs : List PyAttr := []

/-! Concrete demo objects used by witnesses and counterexamples. -/

/-- Demo coordinates for concrete tests. -/
def cD : Coords := ⟨[1, 1], 0⟩

/-- A base arena holding two caller points and no lines. -/
def demoBase : Mesh := ⟨[cA, cB], [], [], 0⟩

/-- Two disjoint lines over four distinct points. -/
def twoLinesMesh : Mesh := geoLineInit (geoLineInit ⟨[cA, cB, cC, cD], [], [], 0⟩ 0 1) 2 3

/-- The degenerate fresh line `Edge(p, p)` over a single point. -/
def degenMesh : Mesh := geoLineInit ⟨[cA], [], [], 0⟩ 0 0

/-- The arena after constructing a Face from half-edge `h` of the joined
triangle (fuel 9 is ample for its cycles of length 3). -/
def triShapeFrom (h : Nat) : Mesh := ((geoShapeInit 9 triDemo h).getD (emptyMesh, 0)).1

/-- C1: for every `e.joinLines(f)` call with a correspondence `(k, v)` of
identical endpoints, the operation performs exactly the six assignments of
the spec for that correspondence (`spliceAt`, read off the source, equals
`spliceRewireSpec`, read off the spec, and `joinLines` is exactly the
per-correspondence application of that rewiring in order `k = 0, 1`); and a
half-edge spliced into a chain inherits its new neighbour's face: after the
splice, `newIn = newOut.twin` carries the `shape` that `outEdge` carried
before the splice. -/
theorem c1_joinLines_rewires :
    (∀ (m : Mesh) (i j k v : Nat), spliceAt m i j k v = spliceRewireSpec m (2*i+k) (2*j+v))
    ∧ (∀ (m : Mesh) (i j : Nat),
        joinLines m i j =
          ((match connAt m i j 1 with
            | some v =>
              spliceRewireSpec
                (match connAt m i j 0 with
                 | some w => spliceRewireSpec m (2*i+0) (2*j+w)
                 | none => m)
                (2*i+1) (2*j+v)
            | none =>
              match connAt m i j 0 with
              | some w => spliceRewireSpec m (2*i+0) (2*j+w)
              | none => m),
           if connectionCount m i j = 0 then 1 else 0))
    ∧ (∀ (m : Mesh) (i j k v : Nat), connAt m i j k = some v →
        j < m.edges.length → meshWF m →
        (m.he (2*j+v)).data.twin = 2*j + (1-v) →
        (((spliceAt m i j k v).he (2*j+(1-v))).data).shape
          = ((m.he (2*i+k)).data).shape) := by
  refine ⟨fun m i j k v => rfl, fun m i j => rfl, ?_⟩
  intro m i j k v hconn hj hwf htwin
  have hv : v = 0 ∨ v = 1 := by
    unfold connAt at hconn
    split at hconn
    · exact Or.inl (Option.some.inj hconn).symm
    · split at hconn
      · exact Or.inr (Option.some.inj hconn).symm
      · cases hconn
  have hwfm : m.hes.length = 2 * m.edges.length := hwf
  have hlen : 2*j + (1-v) < m.hes.length := by
    rcases hv with rfl | rfl <;> omega
  have hne : (2*j+v : Nat) ≠ 2*j+(1-v) := by
    rcases hv with rfl | rfl <;> omega
  simp only [spliceAt]
  rw [htwin]
  rw [he_heUpd_ne _ _ _ _ hne]
  simp only [shape_heUpd_prev, shape_heUpd_next]
  rw [shape_setShapeF_self _ _ _ (by rw [hesLen_heUpd, hesLen_heUpd]; exact hlen)]

/-- Witness for C1 at the joined triangle: edge 1 of `triDemo` still shares
point 1 with edge 0, and the splice makes its incoming half-edge inherit
the shape of the half-edge it now precedes. -/
theorem c1_joinLines_rewires_witness :
    connAt triDemo 0 1 1 = some 0 ∧ 1 < triDemo.edges.length ∧ meshWF triDemo ∧
    (triDemo.he (2*1+0)).data.twin = 2*1 + (1-0) ∧
    (((spliceAt triDemo 0 1 1 0).he (2*1+(1-0))).data).shape
      = ((triDemo.he (2*0+1)).data).shape :=
  ⟨by decide, by decide, by rfl, by decide,
   c1_joinLines_rewires.2.2 triDemo 0 1 1 0 (by decide) (by decide) (by rfl) (by decide)⟩


/-!
Coordinate irrelevance: the topological part of the arena (line records,
half-edge dictionaries, shape count) never depends on the coordinates that
happen to be stored in the points and in the half-edge positions.  This
lets the triangle theorems quantify over arbitrary point coordinates while
evaluating only one concrete instance.
-/

/-- Two arenas agree on everything except possibly coordinates. -/
def topoEq (a b : Mesh) : Prop :=
  a.edges = b.edges
  ∧ a.hes.map HalfEdgePt.data = b.hes.map HalfEdgePt.data
  ∧ a.nShapes = b.nShapes

theorem topoEq_hesLen {a b : Mesh} (h : topoEq a b) : a.hes.length = b.hes.length := by
  have h2 := congrArg List.length h.2.1
  simpa using h2

theorem topoEq_heData {a b : Mesh} (h : topoEq a b) (y : Nat) :
    (a.he y).data = (b.he y).data := by
  have hlen := topoEq_hesLen h
  by_cases hy : y < a.hes.length
  · have h1 : (a.hes.map HalfEdgePt.data)[y]? = (b.hes.map HalfEdgePt.data)[y]? := by
      rw [h.2.1]
    rw [List.getElem?_map, List.getElem?_map, List.getElem?_eq_getElem hy,
      List.getElem?_eq_getElem (hlen ▸ hy)] at h1
    simp only [Option.map_some'] at h1
    have h2 := Option.some.inj h1
    show (a.hes.getD y default).data = (b.hes.getD y default).data
    rw [List.getD_eq_getElem?_getD, List.getD_eq_getElem?_getD,
      List.getElem?_eq_getElem hy, List.getElem?_eq_getElem (hlen ▸ hy)]
    exact h2
  · show (a.hes.getD y default).data = (b.hes.getD y default).data
    rw [List.getD_eq_getElem?_getD, List.getD_eq_getElem?_getD,
      List.getElem?_eq_none (by omega), List.getElem?_eq_none (by omega)]

theorem topoEq_nextOf {a b : Mesh} (h : topoEq a b) (y : Nat) :
    a.nextOf y = b.nextOf y := by
  show (a.he y).data.next = (b.he y).data.next
  rw [topoEq_heData h y]

theorem topoEq_nextIter {a b : Mesh} (h : topoEq a b) :
    ∀ (t y : Nat), nextIter a t y = nextIter b t y
  | 0, _ => rfl
  | t+1, y => by
    show nextIter a t (a.nextOf y) = nextIter b t (b.nextOf y)
    rw [topoEq_nextOf h y, topoEq_nextIter h t]

theorem topoEq_heUpd {a b : Mesh} (h : topoEq a b) (x : Nat) (f : HEDict → HEDict) :
    topoEq (heUpd a x f) (heUpd b x f) := by
  refine ⟨h.1, ?_, h.2.2⟩
  show (a.hes.set x ⟨(a.he x).pos, f (a.he x).data⟩).map HalfEdgePt.data
    = (b.hes.set x ⟨(b.he x).pos, f (b.he x).data⟩).map HalfEdgePt.data
  rw [List.map_set, List.map_set]
  show (a.hes.map HalfEdgePt.data).set x (f (a.he x).data)
    = (b.hes.map HalfEdgePt.data).set x (f (b.he x).data)
  rw [h.2.1, topoEq_heData h x]

theorem topoEq_spliceStep {a b : Mesh} (h : topoEq a b) (x y : Nat) :
    topoEq (heUpd a x (setShapeF ((a.he y).data.shape)))
      (heUpd b x (setShapeF ((b.he y).data.shape))) := by
  rw [topoEq_heData h y]
  exact topoEq_heUpd h x _

theorem topoEq_spliceAt {a b : Mesh} (h : topoEq a b) (i j k v : Nat) :
    topoEq (spliceAt a i j k v) (spliceAt b i j k v) := by
  have e1 := topoEq_heData h (2*i+k)
  have e2 := topoEq_heData h (2*j+v)
  simp only [spliceAt]
  rw [e1, e2]
  exact topoEq_spliceStep
    (topoEq_heUpd (topoEq_heUpd (topoEq_spliceStep
      (topoEq_heUpd (topoEq_heUpd h _ _) _ _) _ _) _ _) _ _) _ _

theorem topoEq_joinLines {a b : Mesh} (h : topoEq a b) (i j : Nat) :
    topoEq (joinLines a i j).1 (joinLines b i j).1
    ∧ (joinLines a i j).2 = (joinLines b i j).2 := by
  have hepts : ∀ (e k : Nat), endPt a e k = endPt b e k := by
    intro e k
    show (if k = 0 then (a.edges.getD e default).endPoints.1
      else (a.edges.getD e default).endPoints.2)
      = (if k = 0 then (b.edges.getD e default).endPoints.1
        else (b.edges.getD e default).endPoints.2)
    rw [h.1]
  have hconn : ∀ k, connAt a i j k = connAt b i j k := by
    intro k
    unfold connAt
    rw [hepts i k, hepts j 0, hepts j 1]
  have hcount : connectionCount a i j = connectionCount b i j := by
    unfold connectionCount
    rw [hepts i 0, hepts i 1, hepts j 0, hepts j 1]
  constructor
  · simp only [joinLines, hconn, hcount]
    cases connAt b i j 0 with
    | none =>
      cases connAt b i j 1 with
      | none => exact h
      | some v1 => exact topoEq_spliceAt h i j 1 v1
    | some v0 =>
      cases connAt b i j 1 with
      | none => exact topoEq_spliceAt h i j 0 v0
      | some v1 => exact topoEq_spliceAt (topoEq_spliceAt h i j 0 v0) i j 1 v1
  · simp only [joinLines, hcount]

theorem topoEq_geoLineInit {a b : Mesh} (h : topoEq a b) (p0 p1 : Nat) :
    topoEq (geoLineInit a p0 p1) (geoLineInit b p0 p1) := by
  obtain ⟨h1, h2, h3⟩ := h
  have hlen : a.edges.length = b.edges.length := by rw [h1]
  refine ⟨?_, ?_, h3⟩
  · show (geoLineInit a p0 p1).edges = (geoLineInit b p0 p1).edges
    simp only [geoLineInit]
    rw [h1]
  · show (geoLineInit a p0 p1).hes.map HalfEdgePt.data
      = (geoLineInit b p0 p1).hes.map HalfEdgePt.data
    simp only [geoLineInit]
    rw [List.map_append, List.map_append, h2, hlen]
    rfl

theorem topoEq_triMesh (c0 c1 c2 : Coords) : topoEq (triMesh c0 c1 c2) triDemo := by
  have h0 : topoEq { emptyMesh with points := [c0, c1, c2] }
      { emptyMesh with points := [cA, cB, cC] } := ⟨rfl, rfl, rfl⟩
  show topoEq (triMesh c0 c1 c2) (triMesh cA cB cC)
  simp only [triMesh]
  exact (topoEq_joinLines ((topoEq_joinLines ((topoEq_joinLines
    (topoEq_geoLineInit (topoEq_geoLineInit (topoEq_geoLineInit h0 0 1) 1 2) 2 0)
    0 1).1) 1 2).1) 2 0).1

theorem returnsExactly_topoEq {a b : Mesh} (h : topoEq a b) (x n : Nat) :
    returnsExactly a x n = returnsExactly b x n := by
  have hIt : ∀ (t y : Nat), nextIter a t y = nextIter b t y := topoEq_nextIter h
  unfold returnsExactly
  simp only [hIt]

/-- C2 counterexample: in the joined triangle the `next` chain from
half-edge 0 does return to its start after 6 steps, but it already returns
after 3 steps (3 < 6), so it does not return after *exactly* 6 steps and
the claimed single hexagonal 6-cycle does not exist. -/
theorem c2_cycle_six_counterexample :
    nextIter triDemo 6 0 = 0
    ∧ nextIter triDemo 3 0 = 0
    ∧ (3 : Nat) < 6
    ∧ returnsExactly triDemo 0 6 = false := by
  refine ⟨by decide, by decide, by decide, by decide⟩

/-- C2 (amended): for any three distinct points (fresh arena indices
0, 1, 2 with arbitrary coordinates) and edges `e1(p0,p1)`, `e2(p1,p2)`,
`e3(p2,p0)` joined `e1.join(e2)`, `e2.join(e3)`, `e3.join(e1)`, the `next`
chain from each of the six half-edges first returns to its start after
exactly 3 steps — it closes after 3 steps and does not return at any step
1 or 2: the joined triangle forms two disjoint half-edge 3-cycles, not one
6-cycle. -/
theorem c2_triangle_cycle_three (c0 c1 c2 : Coords) (h : Nat) (hh : h < 6) :
    returnsExactly (triMesh c0 c1 c2) h 3 = true
    ∧ nextIter (triMesh c0 c1 c2) 3 h = h
    ∧ (∀ k, k < 3 → 0 < k → nextIter (triMesh c0 c1 c2) k h ≠ h) := by
  have ht := topoEq_triMesh c0 c1 c2
  have hIt : ∀ (t y : Nat), nextIter (triMesh c0 c1 c2) t y = nextIter triDemo t y :=
    topoEq_nextIter ht
  refine ⟨?_, ?_, ?_⟩
  · rw [returnsExactly_topoEq ht]
    interval_cases h <;> decide
  · rw [hIt]
    interval_cases h <;> decide
  · simp only [hIt]
    interval_cases h <;> decide

/-- Witness for C2 (amended) at concrete coordinates and half-edge 0. -/
theorem c2_triangle_cycle_three_witness :
    (0 : Nat) < 6
    ∧ returnsExactly (triMesh cA cB cC) 0 3 = true
    ∧ nextIter (triMesh cA cB cC) 3 0 = 0 :=
  ⟨by decide, (c2_triangle_cycle_three cA cB cC 0 (by decide)).1,
   (c2_triangle_cycle_three cA cB cC 0 (by decide)).2.1⟩

/-- C3: evaluation of `GeoShape.__init__` at the two malformed inputs.  A
plain `GeoPointDatum()` (has a `data` dictionary, carries none of the
reserved topological attributes) makes the constructor first mutate the
shared object — its dictionary gains `'shape'` — and then raise `KeyError`
(not the claimed `TypeError`), because the read of `data['next']` sits
outside the `try` block.  Only an argument with no `data` attribute at all
gets the documented `TypeError`, with no mutation. -/
theorem c3_geoShape_badInput_eval :
    geoShapeInitRaw 9 plainPointHeap 7 0
      = some ([⟨true, [(PyKey.kshape, PyVal.vshape 7)]⟩], some PyErr.keyErr)
    ∧ geoShapeInitRaw 9 noDataHeap 7 0 = some (noDataHeap, some PyErr.typeErr) :=
  ⟨rfl, rfl⟩

/-- C4 counterexample: constructing a Face from half-edge 0 of the joined
triangle succeeds but stamps only the 3 half-edges of its own cycle; the
twin cycle's half-edge 1 keeps `face = None`, so "all 6 half-edges report
the new Face" is false. -/
theorem c4_face_six_counterexample :
    (geoShapeInit 9 triDemo 0).isSome = true
    ∧ (((triShapeFrom 0).he 0).data).shape = some 0
    ∧ (((triShapeFrom 0).he 1).data).shape = none := by
  refine ⟨by decide, by decide, by decide⟩

/-- C4 (amended): for every half-edge `rep` lying on a closed `next` cycle
of length `n` (inside the arena), Face construction succeeds and sets the
`shape` attribute of every half-edge of that cycle to the new Face; on the
joined triangle the cycle through any given half-edge has length 3, and
exactly those 3 half-edges report the Face. -/
theorem c4_face_propagation :
    (∀ (m : Mesh) (rep n : Nat), 0 < n → nextIter m n rep = rep →
      (∀ k, k < n → 0 < k → nextIter m k rep ≠ rep) →
      (∀ t, t < n → nextIter m t rep < m.hes.length) →
      ∃ m', geoShapeInit n m rep = some (m', m.nShapes) ∧
        ∀ t, t < n → ((m'.he (nextIter m t rep)).data).shape = some m.nShapes)
    ∧ (∀ h, h < 6 → (geoShapeInit 9 triDemo h).isSome = true ∧
        ∀ t, t < 3 → (((triShapeFrom h).he (nextIter triDemo t h)).data).shape = some 0) := by
  constructor
  · intro m rep n h1 h2 h3 h4
    obtain ⟨m', he1, _, he3⟩ := geoShapeInit_run m rep n h1 h2 h3 h4
    exact ⟨m', he1, he3⟩
  · decide

/-- Witness for C4 (amended): the closed cycle of length 3 through
half-edge 0 of the joined triangle. -/
theorem c4_face_propagation_witness :
    ((0:Nat) < 3 ∧ nextIter triDemo 3 0 = 0) ∧
    ∃ m', geoShapeInit 3 triDemo 0 = some (m', triDemo.nShapes) ∧
      ∀ t, t < 3 → ((m'.he (nextIter triDemo t 0)).data).shape = some triDemo.nShapes :=
  ⟨⟨by decide, by decide⟩,
   c4_face_propagation.1 triDemo 0 3 (by decide) (by decide) (by decide) (by decide)⟩

/-- C5: twin symmetry is an invariant.  For every arena built by any
finite program of point creations, line constructions and `joinLines`
calls, the two half-edges of every line reference each other as `twin`;
moreover `joinLines` never rewrites any half-edge's `twin` link. -/
theorem c5_twin_symmetry :
    (∀ prog : List Instr, twinOK (runProg prog emptyMesh))
    ∧ (∀ (m : Mesh) (i j y : Nat),
        (((joinLines m i j).1.he y).data).twin = ((m.he y).data).twin) := by
  constructor
  · intro prog
    exact (invariant_runProg prog emptyMesh rfl (fun e he => absurd he (Nat.not_lt_zero e))).2
  · exact twin_joinLines

/-- Witness for C5: a concrete program (two points, one line, one
self-join) whose result satisfies twin symmetry. -/
theorem c5_twin_symmetry_witness :
    twinOK (runProg [Instr.addPoint cA, Instr.addPoint cB, Instr.addLine 0 1,
      Instr.join 0 0] emptyMesh) :=
  c5_twin_symmetry.1 _

/-- C6: `GeoLine.__init__(p0, p1)` (identical endpoints allowed) yields a
well-formed arena whose two new half-edges are freshly allocated — they sit
at the indices `2*j`, `2*j+1` just past every existing half-edge, and no
existing half-edge is touched — carry the coordinates of `p0` and `p1`
respectively, and satisfy `h0.twin = h1`, `h1.twin = h0`,
`h0.next = h0.previous = h1`, `h1.next = h1.previous = h0`,
`h0.parent = h1.parent = j`, `h0.face = h1.face = none`; the endpoint
identities are recorded as given. -/
theorem c6_edge_construction (m : Mesh) (p0 p1 : Nat)
    (hwf : meshWF m) (_hp0 : p0 < m.points.length) (_hp1 : p1 < m.points.length) :
    meshWF (geoLineInit m p0 p1)
    ∧ (geoLineInit m p0 p1).hes.length = m.hes.length + 2
    ∧ 2 * m.edges.length = m.hes.length
    ∧ (∀ x, x < m.hes.length → (geoLineInit m p0 p1).he x = m.he x)
    ∧ (geoLineInit m p0 p1).he (2 * m.edges.length)
        = ⟨m.points.getD p0 default,
           ⟨none, 2*m.edges.length+1, 2*m.edges.length+1, 2*m.edges.length+1,
            m.edges.length⟩⟩
    ∧ (geoLineInit m p0 p1).he (2 * m.edges.length + 1)
        = ⟨m.points.getD p1 default,
           ⟨none, 2*m.edges.length, 2*m.edges.length, 2*m.edges.length,
            m.edges.length⟩⟩
    ∧ (geoLineInit m p0 p1).edges.getD m.edges.length default = ⟨(p0, p1)⟩ :=
  ⟨meshWF_geoLineInit m p0 p1 hwf, hesLen_geoLineInit m p0 p1, hwf.symm,
   fun x hx => he_geoLineInit_old m p0 p1 x hx,
   he_geoLineInit_new0 m p0 p1 hwf, he_geoLineInit_new1 m p0 p1 hwf,
   edgesGet_geoLineInit_new m p0 p1⟩

/-- Witness for C6 on a two-point arena (first conjunct projected). -/
theorem c6_edge_construction_witness :
    (meshWF demoBase ∧ 0 < demoBase.points.length ∧ 1 < demoBase.points.length)
    ∧ meshWF (geoLineInit demoBase 0 1) :=
  ⟨⟨rfl, by decide, by decide⟩,
   (c6_edge_construction demoBase 0 1 rfl (by decide) (by decide)).1⟩

/-- C7: `joinLines` on two lines sharing no endpoint by identity emits
exactly one warning and returns the arena completely unchanged — in
particular all four half-edges keep their `next`, `previous` and `face`
attributes and both lines keep their endpoints. -/
theorem c7_join_noShared_noop (m : Mesh) (i j : Nat)
    (h00 : endPt m i 0 ≠ endPt m j 0) (h01 : endPt m i 0 ≠ endPt m j 1)
    (h10 : endPt m i 1 ≠ endPt m j 0) (h11 : endPt m i 1 ≠ endPt m j 1) :
    joinLines m i j = (m, 1) := by
  have hc0 : connAt m i j 0 = none := by
    unfold connAt
    rw [if_neg h00, if_neg h01]
  have hc1 : connAt m i j 1 = none := by
    unfold connAt
    rw [if_neg h10, if_neg h11]
  have hcc : connectionCount m i j = 0 := by
    unfold connectionCount
    rw [if_neg (not_or.mpr ⟨h00, h01⟩), if_neg (not_or.mpr ⟨h10, h11⟩)]
  simp only [joinLines, hc0, hc1, hcc]
  rfl

/-- Witness for C7: two disjoint lines over four distinct points. -/
theorem c7_join_noShared_noop_witness :
    (endPt twoLinesMesh 0 0 ≠ endPt twoLinesMesh 1 0
     ∧ endPt twoLinesMesh 0 0 ≠ endPt twoLinesMesh 1 1
     ∧ endPt twoLinesMesh 0 1 ≠ endPt twoLinesMesh 1 0
     ∧ endPt twoLinesMesh 0 1 ≠ endPt twoLinesMesh 1 1)
    ∧ joinLines twoLinesMesh 0 1 = (twoLinesMesh, 1) :=
  ⟨⟨by decide, by decide, by decide, by decide⟩,
   c7_join_noShared_noop twoLinesMesh 0 1 (by decide) (by decide) (by decide) (by decide)⟩

theorem foldl_addDatum_absent {κ ν : Type} [DecidableEq κ] (k : κ) :
    ∀ (ps : List (κ × ν)) (d : κ → Option ν),
      (∀ p ∈ ps, p.1 ≠ k) → d k = none →
      (ps.foldl (fun d p => addDatum d p.1 p.2) d) k = none
  | [], _, _, hd => hd
  | p :: rest, d, hps, hd => by
    show (rest.foldl (fun d q => addDatum d q.1 q.2) (addDatum d p.1 p.2)) k = none
    apply foldl_addDatum_absent k rest
    · intro q hq
      exact hps q (List.mem_cons_of_mem p hq)
    · show (if k = p.1 then some p.2 else d k) = none
      rw [if_neg (fun e => hps p (List.mem_cons_self p rest) e.symm), hd]

/-- C8: the attribute round-trip holds for `GeoPointDatum` and `GeoLine`
(`addDatum` followed by a lookup of the same key returns exactly the stored
value — whatever the prior state of the store — and a key never stored by
any of the writes that built the store is reported absent, i.e. `KeyError`,
rather than silently defaulting), but fails for `GeoShape`: its
constructor never assigns a `data` store on `self` and the class defines no
`addDatum`, so the instance-attribute set is empty and any access to the
Face store the docstring promises raises `AttributeError`. -/
theorem c8_attribute_roundtrip :
    (∀ (κ ν : Type) [DecidableEq κ] (d : κ → Option ν) (k : κ) (v : ν),
      addDatum d k v k = some v)
    ∧ (∀ (κ ν : Type) [DecidableEq κ] (ps : List (κ × ν)) (k : κ),
        (∀ p ∈ ps, p.1 ≠ k) → buildData ps k = none)
    ∧ (∀ (κ ν : Type) (k : κ), emptyData κ ν k = none)
    ∧ PyAttr.adata ∉ geoShapeInstanceAttrs
    ∧ getInstanceAttr geoShapeInstanceAttrs PyAttr.adata
        = Except.error PyErr.attrErr := by
  refine ⟨?_, ?_, fun κ ν k => rfl, by simp [geoShapeInstanceAttrs], rfl⟩
  · intro κ ν inst d k v
    unfold addDatum
    simp
  · intro κ ν inst ps k hps
    exact foldl_addDatum_absent k ps (emptyData κ ν) hps rfl

/-- C9: under the closed-cycle precondition (the representative returns to
itself after exactly `n` steps of `next`, all on half-edges inside the
arena), the Face-construction walk terminates within fuel `n` — one visit
per half-edge of the cycle — and the `n` visited half-edges are pairwise
distinct, so the work is bounded by the cycle length. -/
theorem c9_face_walk_bounded (m : Mesh) (rep n : Nat)
    (hpos : 0 < n) (hclose : nextIter m n rep = rep)
    (hmin : ∀ k, k < n → 0 < k → nextIter m k rep ≠ rep)
    (hrange : ∀ t, t < n → nextIter m t rep < m.hes.length) :
    (geoShapeInit n m rep).isSome = true
    ∧ (∀ a, a < n → ∀ b, b < n → nextIter m a rep = nextIter m b rep → a = b) := by
  obtain ⟨m', heq, _, _⟩ := geoShapeInit_run m rep n hpos hclose hmin hrange
  refine ⟨?_, nextIter_minimal_inj m rep n hclose hmin⟩
  rw [heq]
  rfl

/-- Witness for C8: a concrete round-trip on natural-number keys and
values, a never-stored key in a two-entry store, and the Face-store access
failure. -/
theorem c8_attribute_roundtrip_witness :
    addDatum (emptyData Nat Nat) 3 7 3 = some 7
    ∧ buildData ([(1, 10), (2, 20)] : List (Nat × Nat)) 5 = none
    ∧ emptyData Nat Nat 5 = none
    ∧ PyAttr.adata ∉ geoShapeInstanceAttrs
    ∧ getInstanceAttr geoShapeInstanceAttrs PyAttr.adata
        = Except.error PyErr.attrErr :=
  ⟨c8_attribute_roundtrip.1 Nat Nat (emptyData Nat Nat) 3 7,
   c8_attribute_roundtrip.2.1 Nat Nat ([(1, 10), (2, 20)] : List (Nat × Nat)) 5 (by decide),
   c8_attribute_roundtrip.2.2.1 Nat Nat 5,
   c8_attribute_roundtrip.2.2.2.1,
   c8_attribute_roundtrip.2.2.2.2⟩

/-- Witness for C9: the 3-cycle through half-edge 0 of the joined
triangle. -/
theorem c9_face_walk_bounded_witness :
    ((0:Nat) < 3 ∧ nextIter triDemo 3 0 = 0)
    ∧ (geoShapeInit 3 triDemo 0).isSome = true :=
  ⟨⟨by decide, by decide⟩,
   (c9_face_walk_bounded triDemo 0 3 (by decide) (by decide) (by decide) (by decide)).1⟩

/-- C10 counterexample: for the degenerate fresh line `Edge(p, p)` the
self-join emits no warning yet rewires both half-edges into self-loops:
half-edge 0's `next` was 1 after construction and is 0 after the
self-join, half-edge 1's `previous` was 0 and is 1, and the arena as a
whole changes — so the self-join of a freshly constructed Edge is not
always a state no-op. -/
theorem c10_selfJoin_degenerate_counterexample :
    (joinLines degenMesh 0 0).2 = 0
    ∧ ((degenMesh.he 0).data).next = 1
    ∧ (((joinLines degenMesh 0 0).1.he 0).data).next = 0
    ∧ ((degenMesh.he 1).data).previous = 0
    ∧ (((joinLines degenMesh 0 0).1.he 1).data).previous = 1
    ∧ (joinLines degenMesh 0 0).1 ≠ degenMesh := by
  refine ⟨by decide, by decide, by decide, by decide, by decide, by decide⟩

/-- C10 (amended): for a line freshly constructed over two distinct
endpoint points, the self-join `e.joinLines(e)` emits no warning and leaves
the arena exactly unchanged (each of the twelve dictionary writes
re-establishes the value the constructor installed).  The degenerate line
`Edge(p, p)` must be excluded: there the second correspondence rewires the
half-edges into self-loops, as the counterexample shows. -/
theorem c10_selfJoin_fresh_noop (m : Mesh) (p0 p1 : Nat)
    (hwf : meshWF m) (hp : p0 ≠ p1) :
    joinLines (geoLineInit m p0 p1) m.edges.length m.edges.length
      = (geoLineInit m p0 p1, 0) := by
  have hwfm : m.hes.length = 2 * m.edges.length := hwf
  have hlenM : (geoLineInit m p0 p1).hes.length = m.hes.length + 2 :=
    hesLen_geoLineInit m p0 p1
  have hA : (geoLineInit m p0 p1).he (2 * m.edges.length)
      = ⟨m.points.getD p0 default,
         ⟨none, 2*m.edges.length+1, 2*m.edges.length+1, 2*m.edges.length+1,
          m.edges.length⟩⟩ := he_geoLineInit_new0 m p0 p1 hwf
  have hB : (geoLineInit m p0 p1).he (2 * m.edges.length + 1)
      = ⟨m.points.getD p1 default,
         ⟨none, 2*m.edges.length, 2*m.edges.length, 2*m.edges.length,
          m.edges.length⟩⟩ := he_geoLineInit_new1 m p0 p1 hwf
  have hA0 : (geoLineInit m p0 p1).he (2 * m.edges.length + 0)
      = ⟨m.points.getD p0 default,
         ⟨none, 2*m.edges.length+1, 2*m.edges.length+1, 2*m.edges.length+1,
          m.edges.length⟩⟩ := hA
  have hE0 : endPt (geoLineInit m p0 p1) m.edges.length 0 = p0 := by
    simp only [endPt]
    rw [edgesGet_geoLineInit_new]
    rfl
  have hE1 : endPt (geoLineInit m p0 p1) m.edges.length 1 = p1 := by
    simp only [endPt]
    rw [edgesGet_geoLineInit_new]
    rfl
  have hc0 : connAt (geoLineInit m p0 p1) m.edges.length m.edges.length 0 = some 0 := by
    unfold connAt
    rw [if_pos rfl]
  have hc1 : connAt (geoLineInit m p0 p1) m.edges.length m.edges.length 1 = some 1 := by
    unfold connAt
    rw [hE0, hE1, if_neg (fun e => hp e.symm), if_pos rfl]
  have hcc : connectionCount (geoLineInit m p0 p1) m.edges.length m.edges.length = 2 := by
    unfold connectionCount
    rw [hE0, hE1, if_pos (Or.inl rfl), if_pos (Or.inr rfl)]
  have hs0 : spliceAt (geoLineInit m p0 p1) m.edges.length m.edges.length 0 0
      = geoLineInit m p0 p1 := by
    apply spliceAt_self_id
    · rw [hlenM]
      omega
    · rw [hA0]
      show 2*m.edges.length+1 < (geoLineInit m p0 p1).hes.length
      rw [hlenM]
      omega
    · rw [hA0]
    · rw [hA0]
      show ((geoLineInit m p0 p1).he (2*m.edges.length+1)).data.next
        = 2*m.edges.length+0
      rw [hB]
      rfl
    · rw [hA0]
      show ((geoLineInit m p0 p1).he (2*m.edges.length+1)).data.shape = (none : Option Nat)
      rw [hB]
  have hs1 : spliceAt (geoLineInit m p0 p1) m.edges.length m.edges.length 1 1
      = geoLineInit m p0 p1 := by
    apply spliceAt_self_id
    · rw [hlenM]
      omega
    · rw [hB]
      show 2*m.edges.length < (geoLineInit m p0 p1).hes.length
      rw [hlenM]
      omega
    · rw [hB]
    · rw [hB]
      show ((geoLineInit m p0 p1).he (2*m.edges.length)).data.next
        = 2*m.edges.length+1
      rw [hA]
    · rw [hB]
      show ((geoLineInit m p0 p1).he (2*m.edges.length)).data.shape = (none : Option Nat)
      rw [hA]
  have hstep : joinLines (geoLineInit m p0 p1) m.edges.length m.edges.length
      = (spliceAt (spliceAt (geoLineInit m p0 p1) m.edges.length m.edges.length 0 0)
          m.edges.length m.edges.length 1 1,
         if connectionCount (geoLineInit m p0 p1) m.edges.length m.edges.length = 0
         then 1 else 0) := by
    simp only [joinLines, hc0, hc1]
  rw [hstep, hs0, hs1, hcc]
  rfl

/-- Witness for C10 (amended): a fresh line over two distinct points. -/
theorem c10_selfJoin_fresh_noop_witness :
    (meshWF demoBase ∧ (0 : Nat) ≠ 1)
    ∧ joinLines (geoLineInit demoBase 0 1) 0 0 = (geoLineInit demoBase 0 1, 0) :=
  ⟨⟨rfl, by decide⟩, c10_selfJoin_fresh_noop demoBase 0 1 rfl (by decide)⟩
